import Mathlib

set_option linter.unusedVariables false
set_option linter.unreachableTactic false
set_option linter.unusedTactic false

namespace PdfPreview

/-!
Shallow embedding of the client in src/script.js: the content renderer
(`displayContent`) and the request-lifecycle state driven by the two click
handlers (extract, download).  DOM output is modelled as a tree of nodes;
`textContent` assignment is modelled as storing a literal text node.
JSON values (as produced by the browser JSON.parse) are modelled by `Json`,
with numbers restricted to integers (no claim involves fractional numbers).
-/

/-- JSON values as produced by JSON.parse.  Numbers are modelled as integers. -/
inductive Json where
  | null : Json
  | bool (b : Bool) : Json
  | num (n : Int) : Json
  | str (s : String) : Json
  | arr (elems : List Json) : Json
  | obj (fields : List (String × Json)) : Json

mutual

/-- JS ToString of a JSON value, as used when a value is assigned to
textContent (null is treated as the empty string by the textContent setter;
arrays join their elements with commas; objects print as [object Object]). -/
def jsDisplay : Json → String
  | Json.null => ""
  | Json.bool b => cond b "true" "false"
  | Json.num n => toString n
  | Json.str s => s
  | Json.arr xs => jsDisplayList xs
  | Json.obj _ => "[object Object]"

/-- Comma-joined JS ToString of a list of JSON values (Array.prototype.join). -/
def jsDisplayList : List Json → String
  | [] => ""
  | [x] => jsDisplay x
  | x :: y :: rest => jsDisplay x ++ "," ++ jsDisplayList (y :: rest)

end

/-- JS truthiness of a JSON value. -/
def jsTruthy : Json → Bool
  | Json.null => false
  | Json.bool b => b
  | Json.num n => n != 0
  | Json.str s => s != ""
  | Json.arr _ => true
  | Json.obj _ => true

/-- Property lookup in an object built by JSON.parse: with duplicate keys the
last occurrence wins, as in JS. -/
def lookupField (fields : List (String × Json)) (key : String) : Option Json :=
  match fields with
  | [] => none
  | (k, v) :: rest =>
    match lookupField rest key with
    | some r => some r
    | none => if k = key then some v else none

/-- JS property access on a JSON value: only objects have data properties. -/
def getProp : Json → String → Option Json
  | Json.obj fields, key => lookupField fields key
  | _, _ => none

/-- View a JSON value as an array (needed for a .forEach call to succeed). -/
def asArray : Json → Option (List Json)
  | Json.arr xs => some xs
  | _ => none

/-- Every row of a table body must itself be an array for row.forEach. -/
def asRows : List Json → Option (List (List Json))
  | [] => some []
  | r :: rest =>
    match asArray r, asRows rest with
    | some row, some rows => some (row :: rows)
    | _, _ => none

/- Character codes used by the JSON grammar, kept as named constants. -/

def quoteChar : Char := Char.ofNat 34

def backslashChar : Char := Char.ofNat 92

def lbraceChar : Char := Char.ofNat 123

def rbraceChar : Char := Char.ofNat 125

def lbrackChar : Char := Char.ofNat 91

def rbrackChar : Char := Char.ofNat 93

def commaChar : Char := Char.ofNat 44

def colonChar : Char := Char.ofNat 58

def minusChar : Char := Char.ofNat 45

/-- JSON insignificant whitespace. -/
def isJsonWs (c : Char) : Bool :=
  c = ' ' || c = '\n' || c = '\t' || c = '\r'

/-- Drop leading JSON whitespace. -/
def skipWs : List Char → List Char
  | [] => []
  | c :: cs => if isJsonWs c then skipWs cs else c :: cs

/-- Body of a JSON string literal after the opening quote.  The common escapes
are supported; unsupported escapes make the parse fail (a model restriction:
no claim input uses them). -/
def parseStringBody : List Char → List Char → Option (String × List Char)
  | [], _ => none
  | c :: rest, acc =>
    if c = quoteChar then some (String.mk acc.reverse, rest)
    else if c = backslashChar then
      match rest with
      | [] => none
      | e :: rest2 =>
        if e = quoteChar then parseStringBody rest2 (quoteChar :: acc)
        else if e = backslashChar then parseStringBody rest2 (backslashChar :: acc)
        else if e = '/' then parseStringBody rest2 ('/' :: acc)
        else if e = 'n' then parseStringBody rest2 ('\n' :: acc)
        else if e = 't' then parseStringBody rest2 ('\t' :: acc)
        else if e = 'r' then parseStringBody rest2 ('\r' :: acc)
        else none
    else parseStringBody rest (c :: acc)

/-- Decimal value of a digit run. -/
def digitsVal : List Char → Nat → Nat
  | [], acc => acc
  | c :: cs, acc => digitsVal cs (acc * 10 + (c.toNat - 48))

/-- Parse a nonempty digit run. -/
def parseDigits (cs : List Char) : Option (Nat × List Char) :=
  let ds := cs.takeWhile (fun c => c.isDigit)
  let rest := cs.dropWhile (fun c => c.isDigit)
  if ds.isEmpty then none else some (digitsVal ds 0, rest)

/-- Parse a JSON integer literal (model restriction: no fraction/exponent). -/
def parseNumber (cs : List Char) : Option (Json × List Char) :=
  match cs with
  | [] => none
  | c :: rest =>
    if c = minusChar then
      match parseDigits rest with
      | some (n, r) => some (Json.num (-(n : Int)), r)
      | none => none
    else
      match parseDigits cs with
      | some (n, r) => some (Json.num (n : Int), r)
      | none => none

mutual

/-- Parse one JSON value.  Fuel bounds the nesting depth. -/
def parseValue (fuel : Nat) (cs : List Char) : Option (Json × List Char) :=
  match fuel with
  | 0 => none
  | f + 1 =>
    match skipWs cs with
    | [] => none
    | c :: rest =>
      if c = quoteChar then
        match parseStringBody rest [] with
        | some (s, r) => some (Json.str s, r)
        | none => none
      else if c = lbraceChar then
        match skipWs rest with
        | [] => none
        | c2 :: rest2 =>
          if c2 = rbraceChar then some (Json.obj [], rest2)
          else
            match parseMembers f (c2 :: rest2) [] with
            | some (fields, r) => some (Json.obj fields, r)
            | none => none
      else if c = lbrackChar then
        match skipWs rest with
        | [] => none
        | c2 :: rest2 =>
          if c2 = rbrackChar then some (Json.arr [], rest2)
          else
            match parseElements f (c2 :: rest2) [] with
            | some (elems, r) => some (Json.arr elems, r)
            | none => none
      else if c = 't' then
        match rest with
        | 'r' :: 'u' :: 'e' :: r => some (Json.bool true, r)
        | _ => none
      else if c = 'f' then
        match rest with
        | 'a' :: 'l' :: 's' :: 'e' :: r => some (Json.bool false, r)
        | _ => none
      else if c = 'n' then
        match rest with
        | 'u' :: 'l' :: 'l' :: r => some (Json.null, r)
        | _ => none
      else parseNumber (c :: rest)

/-- Parse the members of a JSON object after the opening brace. -/
def parseMembers (fuel : Nat) (cs : List Char) (acc : List (String × Json)) :
    Option (List (String × Json) × List Char) :=
  match fuel with
  | 0 => none
  | f + 1 =>
    match skipWs cs with
    | [] => none
    | c :: rest =>
      if c = quoteChar then
        match parseStringBody rest [] with
        | some (k, cs2) =>
          match skipWs cs2 with
          | [] => none
          | c2 :: rest2 =>
            if c2 = colonChar then
              match parseValue f rest2 with
              | some (v, cs3) =>
                match skipWs cs3 with
                | [] => none
                | c3 :: rest3 =>
                  if c3 = commaChar then parseMembers f rest3 (acc ++ [(k, v)])
                  else if c3 = rbraceChar then some (acc ++ [(k, v)], rest3)
                  else none
              | none => none
            else none
        | none => none
      else none

/-- Parse the elements of a JSON array after the opening bracket. -/
def parseElements (fuel : Nat) (cs : List Char) (acc : List Json) :
    Option (List Json × List Char) :=
  match fuel with
  | 0 => none
  | f + 1 =>
    match parseValue f cs with
    | some (v, cs2) =>
      match skipWs cs2 with
      | [] => none
      | c :: rest =>
        if c = commaChar then parseElements f rest (acc ++ [v])
        else if c = rbrackChar then some (acc ++ [v], rest)
        else none
    | none => none

end

/-- Model of JSON.parse: parse one value and require the rest to be blank. -/
def parseJson (s : String) : Option Json :=
  match parseValue (2 * s.length + 4) s.toList with
  | some (j, rest) => if (skipWs rest).isEmpty then some j else none
  | none => none

/-- The deserialization the table branch of displayContent performs on
item.content: JSON.parse, then .columns and .data must both be arrays whose
forEach succeeds, and every row must itself be an array.  Returns none exactly
when the JS code throws before appending the table to the preview. -/
def decodeTable (s : String) : Option (List Json × List (List Json)) :=
  match parseJson s with
  | none => none
  | some j =>
    match getProp j "columns", getProp j "data" with
    | some cj, some dj =>
      match asArray cj, asArray dj with
      | some cols, some rowsj =>
        match asRows rowsj with
        | some rows => some (cols, rows)
        | none => none
      | _, _ => none
    | _, _ => none

/-- DOM nodes.  An element carries its tag, its data attributes and its
children; a text node carries literal character data.  Class attributes
(pure styling) are omitted. -/
inductive Node where
  | text (data : String) : Node
  | elem (tag : String) (attrs : List (String × String)) (children : List Node) : Node

mutual

/-- The literal character data of a node, in document order. -/
def textLeaves : Node → List String
  | Node.text s => [s]
  | Node.elem _ _ cs => textLeavesList cs

/-- The literal character data of a node list, in document order. -/
def textLeavesList : List Node → List String
  | [] => []
  | n :: ns => textLeaves n ++ textLeavesList ns

end

/-- Whether a node is an element (rather than a text node). -/
def isElemNode : Node → Bool
  | Node.elem _ _ _ => true
  | Node.text _ => false

/-- The element children of a node. -/
def elemChildren : Node → List Node
  | Node.text _ => []
  | Node.elem _ _ cs => cs.filter isElemNode

/-- The group-header h3 node built at a source_filename boundary. -/
def headerNode (filename : String) : Node :=
  Node.elem "h3" [] [Node.text ("--- Content from: " ++ filename ++ " ---")]

/-- The paragraph built for a text item: p.textContent = item.content. -/
def pNode (content : String) : Node :=
  Node.elem "p" [] [Node.text content]

/-- The titled image block built for an image item. -/
def imageNode (title : String) (src : String) : Node :=
  Node.elem "div" []
    [Node.elem "h4" [] [Node.text title],
     Node.elem "img" [("src", src), ("alt", title)] []]

/-- A header cell: th.textContent = col. -/
def thNode (c : Json) : Node :=
  Node.elem "th" [] [Node.text (jsDisplay c)]

/-- A body cell: td.textContent = cell. -/
def tdNode (c : Json) : Node :=
  Node.elem "td" [] [Node.text (jsDisplay c)]

/-- A body row: one td per cell, in positional order. -/
def rowNode (r : List Json) : Node :=
  Node.elem "tr" [] (r.map tdNode)

/-- The titled table block built for a table item. -/
def tableNode (title : String) (cols : List Json) (rows : List (List Json)) : Node :=
  Node.elem "div" []
    [Node.elem "h4" [] [Node.text title],
     Node.elem "table" []
       [Node.elem "thead" [] [Node.elem "tr" [] (cols.map thNode)],
        Node.elem "tbody" [] (rows.map rowNode)]]

/-- One extracted content item, as consumed by displayContent. -/
structure ContentItem where
  source_filename : String
  type : String
  title : String
  content : String
  deriving DecidableEq

/-- Whether an item type is one of the three recognized discriminators. -/
def recognized (it : ContentItem) : Bool :=
  if it.type = "text" then true
  else if it.type = "image" then true
  else if it.type = "table" then true
  else false

/-- The nodes the type dispatch of displayContent appends for one item:
text and image always yield one block, an unrecognized type yields nothing,
and a table yields one block when its content deserializes and otherwise
throws (none) before anything of the table reaches the preview. -/
def renderItemBlock (it : ContentItem) : Option (List Node) :=
  if it.type = "text" then some [pNode it.content]
  else if it.type = "image" then some [imageNode it.title it.content]
  else if it.type = "table" then
    match decodeTable it.content with
    | some cr => some [tableNode it.title cr.1 cr.2]
    | none => none
  else some []

/-- The loop of displayContent: cur is the tracked source_filename (the JS
variable currentSource, initialized to the empty string); a header is emitted
whenever the current item differs from it, before the type dispatch.  The
Bool is false when a table item threw, aborting the loop with the nodes
appended so far (the boundary header of the throwing item included). -/
def renderItems (cur : String) : List ContentItem → List Node × Bool
  | [] => ([], true)
  | item :: rest =>
    let hdrs : List Node :=
      if cur = item.source_filename then [] else [headerNode item.source_filename]
    match renderItemBlock item with
    | none => (hdrs, false)
    | some ns =>
      let r := renderItems item.source_filename rest
      (hdrs ++ ns ++ r.1, r.2)

/-- displayContent: the children appended to the content preview (after the
hidden placeholder), and whether the render ran to completion.  The clearing
of the previous preview is modelled at the call sites in the click handlers. -/
def displayContent (data : List ContentItem) : List Node × Bool :=
  renderItems "" data

/-- Whether a top-level preview node is a group header (an h3). -/
def isHeaderNode : Node → Bool
  | Node.elem t _ _ => if t = "h3" then true else false
  | Node.text _ => false

/-- Whether a top-level preview node is a rendered item block (a p or a div). -/
def isItemBlockNode : Node → Bool
  | Node.elem t _ _ => if t = "p" then true else if t = "div" then true else false
  | Node.text _ => false

/-- Number of group headers among top-level preview nodes. -/
def countHeaders : List Node → Nat
  | [] => 0
  | n :: ns => (if isHeaderNode n then 1 else 0) + countHeaders ns

/-- Number of rendered item blocks among top-level preview nodes. -/
def countItemBlocks : List Node → Nat
  | [] => 0
  | n :: ns => (if isItemBlockNode n then 1 else 0) + countItemBlocks ns

/-- Number of positions whose filename differs from the filename tracked so
far, starting from cur (the boundary count the header loop realizes). -/
def countChanges (cur : String) : List String → Nat
  | [] => 0
  | f :: rest => (if cur = f then 0 else 1) + countChanges f rest

/-- Number of maximal runs of equal adjacent values. -/
def runsCount : List String → Nat
  | [] => 0
  | [_] => 1
  | a :: b :: rest => (if a = b then 0 else 1) + runsCount (b :: rest)

/-- The item blocks the dispatch contributes per item, concatenated in input
order (headers excluded). -/
def itemBlocksExpected : List ContentItem → List Node
  | [] => []
  | it :: rest => ((renderItemBlock it).getD []) ++ itemBlocksExpected rest

/-!
Request-lifecycle model: the mutable client state touched by the two click
handlers, the possible outcomes of the network calls (the environment of one
handler run), and the two handlers as state-transition functions.  A handler
run is atomic: during its awaits all triggering controls are disabled or
hidden, so no other handler can interleave.
-/

/-- The mutable client state the handlers read and write.  loading models
setLoading (spinner shown, all three controls disabled); downloadHidden
models the hidden class on the download button; previewBlocks are the
preview children after the placeholder paragraph. -/
structure UIState where
  extractedData : List ContentItem
  previewBlocks : List Node
  placeholderHidden : Bool
  message : String
  messageColor : String
  loading : Bool
  downloadHidden : Bool

/-- Initial page state: nothing extracted, placeholder shown, download button
hidden (initial markup; the spec keeps downloading disabled before the first
successful extraction). -/
def initState : UIState :=
  { extractedData := []
    previewBlocks := []
    placeholderHidden := false
    message := ""
    messageColor := ""
    loading := false
    downloadHidden := true }

/-- Validation message for an empty file selection. -/
def noFilesMsg : String := "Please select one or more PDF files first."

/-- Progress message while uploading. -/
def processingMsg (n : Nat) : String :=
  "Processing " ++ toString n ++ " PDF file(s)..."

/-- Message for an empty extraction result. -/
def noContentMsg : String := "No content could be extracted from the files."

/-- Success message after a non-empty extraction. -/
def extractOkMsg : String :=
  "Content extracted successfully! You can now download the PDF."

/-- The catch-block message of the extract handler. -/
def extractErrMsg (m : String) : String :=
  "An error occurred: " ++ m ++ ". Please check the server console for details."

/-- Validation message when there is nothing to download. -/
def noDownloadMsg : String := "No content to download. Please extract first."

/-- Progress message while generating the download. -/
def generatingMsg : String := "Generating PDF for download..."

/-- Success message after a download started. -/
def downloadOkMsg : String := "Download started for extracted_content.pdf."

/-- The catch-block message of the download handler. -/
def downloadErrMsg (m : String) : String :=
  "An error occurred during download: " ++ m ++ "."

/-- The generic status-derived message of the template string. -/
def genericStatusMessage (status : Nat) : String :=
  "HTTP error! status: " ++ toString status

/-- The message thrown for a non-2xx response whose body parsed as JSON:
errorData.error when truthy, else the generic status message. -/
def serviceErrorMessage (status : Nat) (body : Json) : String :=
  match getProp body "error" with
  | some e => if jsTruthy e then jsDisplay e else genericStatusMessage status
  | none => genericStatusMessage status

/-- The message the catch block sees for a non-2xx response.  body = none
models a response body that is not valid JSON: response.json() rejects and
the catch sees that parse failure (thrownMsg), not a status message.  A null
body parses, but errorData.error then throws a TypeError, again surfacing
the thrown message. -/
def errorBodyMessage (status : Nat) (body : Option Json) (thrownMsg : String) : String :=
  match body with
  | none => thrownMsg
  | some Json.null => thrownMsg
  | some j => serviceErrorMessage status j

/-- Environment of one extract run: how the upload request resolved.
bodyNotJson covers a 2xx response whose body could not be used (the await of
response.json() rejected). -/
inductive UploadOutcome where
  | success (data : List ContentItem) : UploadOutcome
  | httpFailure (status : Nat) (body : Option Json) : UploadOutcome
  | transport (msg : String) : UploadOutcome
  | bodyNotJson (msg : String) : UploadOutcome

/-- Environment of the proactive generate-pdf request issued right after a
successful non-empty extraction: the handler never reads its status, so a
resolved response only carries (and ignores) whether it was 2xx. -/
inductive GenOutcome where
  | resolved (ok : Bool) : GenOutcome
  | rejected (msg : String) : GenOutcome

/-- Environment of one download run: how the generate request resolved. -/
inductive DownloadOutcome where
  | success : DownloadOutcome
  | httpFailure (status : Nat) (body : Option Json) : DownloadOutcome
  | transport (msg : String) : DownloadOutcome

/-- The catch-then-finally tail of the extract handler. -/
def extractFail (s : UIState) (m : String) : UIState :=
  { s with message := extractErrMsg m, messageColor := "red", loading := false }

/-- One run of the extract click handler.  numFiles is the size of the file
selection; thrownMsg is the message of an error thrown while reading a
response body, renderErrMsg the message of an error thrown inside
displayContent.  Returns the final state and the number of network calls
issued. -/
def extractStep (s : UIState) (numFiles : Nat) (up : UploadOutcome)
    (gen : GenOutcome) (thrownMsg renderErrMsg : String) : UIState × Nat :=
  if numFiles = 0 then
    ({ s with message := noFilesMsg, messageColor := "yellow" }, 0)
  else
    let s0 : UIState :=
      { s with message := processingMsg numFiles, messageColor := "blue",
               loading := true, downloadHidden := true,
               previewBlocks := [], placeholderHidden := false }
    match up with
    | UploadOutcome.transport m => (extractFail s0 m, 1)
    | UploadOutcome.bodyNotJson m => (extractFail s0 m, 1)
    | UploadOutcome.httpFailure status body =>
      (extractFail s0 (errorBodyMessage status body thrownMsg), 1)
    | UploadOutcome.success data =>
      let s1 : UIState := { s0 with extractedData := data }
      if data.isEmpty then
        ({ s1 with message := noContentMsg, messageColor := "yellow",
                   loading := false }, 1)
      else
        let rendered := displayContent data
        let s2 : UIState :=
          { s1 with previewBlocks := rendered.1, placeholderHidden := true }
        if rendered.2 then
          let s3 : UIState :=
            { s2 with message := extractOkMsg, messageColor := "green" }
          match gen with
          | GenOutcome.resolved _ =>
            ({ s3 with downloadHidden := false, loading := false }, 2)
          | GenOutcome.rejected m => (extractFail s3 m, 2)
        else
          (extractFail s2 renderErrMsg, 1)

/-- One run of the download click handler.  Returns the final state, the
number of network calls issued, and the dataset serialized into the request
body (none when validation stopped the run). -/
def downloadStep (s : UIState) (o : DownloadOutcome) (thrownMsg : String) :
    UIState × Nat × Option (List ContentItem) :=
  if s.extractedData.isEmpty then
    ({ s with message := noDownloadMsg, messageColor := "yellow" }, 0, none)
  else
    let s0 : UIState :=
      { s with message := generatingMsg, messageColor := "blue", loading := true }
    match o with
    | DownloadOutcome.success =>
      ({ s0 with message := downloadOkMsg, messageColor := "green",
                 loading := false }, 1, some s.extractedData)
    | DownloadOutcome.httpFailure status body =>
      ({ s0 with message := downloadErrMsg (errorBodyMessage status body thrownMsg),
                 messageColor := "red", loading := false }, 1, some s.extractedData)
    | DownloadOutcome.transport m =>
      ({ s0 with message := downloadErrMsg m, messageColor := "red",
                 loading := false }, 1, some s.extractedData)

/-- A user-triggered handler run together with its environment. -/
inductive Event where
  | extract (numFiles : Nat) (up : UploadOutcome) (gen : GenOutcome)
      (thrownMsg renderErrMsg : String) : Event
  | download (o : DownloadOutcome) (thrownMsg : String) : Event

/-- The state after one handler run. -/
def step (s : UIState) : Event → UIState
  | Event.extract n up gen tm rm => (extractStep s n up gen tm rm).1
  | Event.download o tm => (downloadStep s o tm).1

/-- States the client can be in between handler runs. -/
inductive Reachable : UIState → Prop where
  | init : Reachable initState
  | next (s : UIState) (e : Event) : Reachable s → Reachable (step s e)

/-- Invariant between handler runs: the spinner is off, and whenever the
download button is visible the retained dataset is non-empty and the preview
shows exactly its complete, successful render. -/
def goodState (s : UIState) : Prop :=
  s.loading = false ∧
  (s.downloadHidden = false →
    s.extractedData ≠ [] ∧
    s.previewBlocks = (displayContent s.extractedData).1 ∧
    (displayContent s.extractedData).2 = true)

/-!
Renderer lemmas.
-/

theorem countHeaders_append (a b : List Node) :
    countHeaders (a ++ b) = countHeaders a + countHeaders b := by
  induction a with
  | nil => simp [countHeaders]
  | cons n ns ih => simp [countHeaders, ih]; omega

theorem countItemBlocks_append (a b : List Node) :
    countItemBlocks (a ++ b) = countItemBlocks a + countItemBlocks b := by
  induction a with
  | nil => simp [countItemBlocks]
  | cons n ns ih => simp [countItemBlocks, ih]; omega

theorem renderItemBlock_shape (it : ContentItem) (ns : List Node)
    (h : renderItemBlock it = some ns) :
    countHeaders ns = 0 ∧
    countItemBlocks ns = (if recognized it = true then 1 else 0) ∧
    ns.filter (fun n => !isHeaderNode n) = ns := by
  unfold renderItemBlock at h
  by_cases h1 : it.type = "text"
  · simp [h1] at h
    subst h
    simp [countHeaders, countItemBlocks, pNode, isHeaderNode, isItemBlockNode,
      recognized, h1]
  · by_cases h2 : it.type = "image"
    · simp [h1, h2] at h
      subst h
      simp [countHeaders, countItemBlocks, imageNode, isHeaderNode, isItemBlockNode,
        recognized, h1, h2]
    · by_cases h3 : it.type = "table"
      · simp [h1, h2, h3] at h
        cases hd : decodeTable it.content with
        | none => rw [hd] at h; simp at h
        | some cr =>
          rw [hd] at h
          simp at h
          subst h
          simp [countHeaders, countItemBlocks, tableNode, isHeaderNode,
            isItemBlockNode, recognized, h1, h2, h3]
      · simp [h1, h2, h3] at h
        subst h
        simp [countHeaders, countItemBlocks, recognized, h1, h2, h3, List.filter]

theorem renderItems_counts (d : List ContentItem) : ∀ cur : String,
    (renderItems cur d).2 = true →
    countHeaders (renderItems cur d).1
      = countChanges cur (d.map (fun it => it.source_filename)) ∧
    countItemBlocks (renderItems cur d).1
      = d.countP (fun it => recognized it) := by
  induction d with
  | nil => intro cur _; simp [renderItems, countHeaders, countItemBlocks, countChanges]
  | cons item rest ih =>
    intro cur hok
    cases hb : renderItemBlock item with
    | none => simp [renderItems, hb] at hok
    | some ns =>
      have hshape := renderItemBlock_shape item ns hb
      have hok2 : (renderItems item.source_filename rest).2 = true := by
        simp [renderItems, hb] at hok
        exact hok
      obtain ⟨ih1, ih2⟩ := ih item.source_filename hok2
      obtain ⟨hs1, hs2, -⟩ := hshape
      constructor
      · by_cases hc : cur = item.source_filename <;>
          simp [renderItems, hb, hc, countHeaders, countHeaders_append, headerNode,
            isHeaderNode, hs1, ih1, countChanges] <;> omega
      · by_cases hc : cur = item.source_filename <;>
          simp [renderItems, hb, hc, countItemBlocks, countItemBlocks_append,
            headerNode, isItemBlockNode, hs2, ih2, List.countP_cons] <;> omega

theorem runsCount_eq_countChanges (rest : List String) : ∀ f : String,
    runsCount (f :: rest) = 1 + countChanges f rest := by
  induction rest with
  | nil => intro f; simp [runsCount, countChanges]
  | cons g r ih =>
    intro f
    by_cases hfg : f = g
    · simp [runsCount, countChanges, hfg, ih]
    · simp [runsCount, countChanges, hfg, ih]

/-- C1 counterexample: the tracked source starts as the empty string, so a
dataset whose first item has source_filename equal to the empty string gets
no group header for its first run: 0 headers although there is 1 maximal run
of equal source_filename (the claim requires a header for the very first
item and header count = run count). -/
theorem displayContent_missing_header_on_empty_first_source :
    countHeaders (displayContent [⟨"", "text", "", "Hello"⟩]).1 = 0 ∧
    runsCount (([⟨"", "text", "", "Hello"⟩] : List ContentItem).map
      fun it => it.source_filename) = 1 ∧
    (displayContent [⟨"", "text", "", "Hello"⟩]).2 = true := by
  decide

/-- C1 (amended): iterating in input order, a group header is emitted exactly
when the item source_filename differs from the tracked value, which starts as
the empty string; hence, provided the first item source_filename is nonempty
and the render runs to completion (no table item throws), the number of group
headers equals the number of maximal runs of equal source_filename, and the
number of rendered item blocks equals the number of items with a recognized
type. -/
theorem displayContent_grouping (d : List ContentItem)
    (hfirst : (d.map fun it => it.source_filename).head? ≠ some "")
    (hok : (displayContent d).2 = true) :
    countHeaders (displayContent d).1
      = runsCount (d.map fun it => it.source_filename) ∧
    countItemBlocks (displayContent d).1
      = d.countP (fun it => recognized it) := by
  obtain ⟨h1, h2⟩ := renderItems_counts d "" hok
  refine ⟨?_, h2⟩
  cases d with
  | nil => simp [displayContent, renderItems, countHeaders, runsCount]
  | cons item rest =>
    have hfe : ¬("" = item.source_filename) := by
      intro he
      exact hfirst (by simp [← he])
    have hgoal : countHeaders (displayContent (item :: rest)).1
        = countChanges "" ((item :: rest).map fun it => it.source_filename) := h1
    rw [hgoal, List.map_cons, runsCount_eq_countChanges, countChanges]
    simp [hfe]

/-- C1 witness: three text items from a.pdf, a.pdf, b.pdf render with
exactly 2 group headers (one per maximal run) and 3 item blocks. -/
theorem displayContent_grouping_witness :
    ((([⟨"a.pdf", "text", "", "Hello"⟩, ⟨"a.pdf", "text", "", "World"⟩,
        ⟨"b.pdf", "text", "", "Foo"⟩] : List ContentItem).map
      fun it => it.source_filename).head? ≠ some "") ∧
    countHeaders (displayContent
      [⟨"a.pdf", "text", "", "Hello"⟩, ⟨"a.pdf", "text", "", "World"⟩,
       ⟨"b.pdf", "text", "", "Foo"⟩]).1
      = runsCount (([⟨"a.pdf", "text", "", "Hello"⟩,
          ⟨"a.pdf", "text", "", "World"⟩,
          ⟨"b.pdf", "text", "", "Foo"⟩] : List ContentItem).map
        fun it => it.source_filename) ∧
    runsCount (([⟨"a.pdf", "text", "", "Hello"⟩, ⟨"a.pdf", "text", "", "World"⟩,
        ⟨"b.pdf", "text", "", "Foo"⟩] : List ContentItem).map
      fun it => it.source_filename) = 2 :=
  ⟨by decide,
   (displayContent_grouping _ (by decide) (by decide)).1,
   by decide⟩

/-- C3: a text item is rendered as a paragraph whose textContent is the item
content; the content becomes a single literal text leaf and never contributes
any element structure, whatever markup-like characters it contains. -/
theorem text_items_render_verbatim (it : ContentItem) (h : it.type = "text") :
    renderItemBlock it = some [pNode it.content] ∧
    (∀ c : String, textLeaves (pNode c) = [c]) ∧
    (∀ c : String, elemChildren (pNode c) = []) := by
  refine ⟨?_, ?_, ?_⟩
  · simp [renderItemBlock, h]
  · intro c
    simp [pNode, textLeaves, textLeavesList]
  · intro c
    simp [pNode, elemChildren, isElemNode, List.filter]

/-- C3 witness: markup-laden content is stored verbatim as character data. -/
theorem text_items_render_verbatim_witness :
    renderItemBlock ⟨"a.pdf", "text", "", "<b>hi</b><script>alert(1)</script>"⟩
      = some [pNode "<b>hi</b><script>alert(1)</script>"] ∧
    textLeaves (pNode "<b>hi</b><script>alert(1)</script>")
      = ["<b>hi</b><script>alert(1)</script>"] :=
  ⟨(text_items_render_verbatim
      ⟨"a.pdf", "text", "", "<b>hi</b><script>alert(1)</script>"⟩ rfl).1,
   (text_items_render_verbatim
      ⟨"a.pdf", "text", "", "<b>hi</b><script>alert(1)</script>"⟩ rfl).2.1
     "<b>hi</b><script>alert(1)</script>"⟩

theorem renderItemBlock_total (it : ContentItem)
    (h : it.type = "table" → (decodeTable it.content).isSome = true) :
    ∃ ns, renderItemBlock it = some ns := by
  unfold renderItemBlock
  by_cases h1 : it.type = "text"
  · exact ⟨[pNode it.content], by simp [h1]⟩
  · by_cases h2 : it.type = "image"
    · exact ⟨[imageNode it.title it.content], by simp [h1, h2]⟩
    · by_cases h3 : it.type = "table"
      · cases hd : decodeTable it.content with
        | none => rw [h3] at h; simp [hd] at h
        | some cr => exact ⟨[tableNode it.title cr.1 cr.2], by simp [h1, h2, h3, hd]⟩
      · exact ⟨[], by simp [h1, h2, h3]⟩

theorem isHeaderNode_headerNode (f : String) : isHeaderNode (headerNode f) = true :=
  rfl

theorem renderItems_item_blocks (d : List ContentItem) : ∀ cur : String,
    (∀ it ∈ d, it.type = "table" → (decodeTable it.content).isSome = true) →
    (renderItems cur d).2 = true ∧
    ((renderItems cur d).1).filter (fun n => !isHeaderNode n)
      = itemBlocksExpected d := by
  induction d with
  | nil => intro cur _; simp [renderItems, itemBlocksExpected]
  | cons item rest ih =>
    intro cur hall
    obtain ⟨ns, hb⟩ := renderItemBlock_total item (hall item (List.mem_cons_self item rest))
    obtain ⟨ihok, ihfil⟩ :=
      ih item.source_filename (fun it hit => hall it (List.mem_cons_of_mem _ hit))
    obtain ⟨-, -, hkeep⟩ := renderItemBlock_shape item ns hb
    constructor
    · simp [renderItems, hb, ihok]
    · by_cases hc : cur = item.source_filename <;>
        simp [renderItems, hb, hc, List.filter_append, List.filter_cons,
          isHeaderNode_headerNode, ihfil, itemBlocksExpected, hkeep]

/-- C7 counterexample: an unrecognized item does produce visual output when
its source_filename opens a new run: a trailing audio item from b.pdf makes
the renderer emit a group header for b.pdf even though no item from b.pdf is
rendered, so the output is not that of the dataset without the item. -/
theorem unrecognized_item_changes_output :
    (displayContent [⟨"a.pdf", "text", "", "Hello"⟩,
        ⟨"b.pdf", "audio", "Clip", "x"⟩]).1
      = [headerNode "a.pdf", pNode "Hello", headerNode "b.pdf"] ∧
    (displayContent [⟨"a.pdf", "text", "", "Hello"⟩]).1
      = [headerNode "a.pdf", pNode "Hello"] ∧
    countHeaders (displayContent [⟨"a.pdf", "text", "", "Hello"⟩,
        ⟨"b.pdf", "audio", "Clip", "x"⟩]).1
      ≠ countHeaders (displayContent [⟨"a.pdf", "text", "", "Hello"⟩]).1 :=
  ⟨rfl, rfl, by decide⟩

/-- C7 (amended): an item with an unrecognized type contributes no item block
and raises no error, and every recognized item with a well-formed payload in
the same dataset still renders normally; the source_filename of the skipped
item still participates in group-header tracking, so a header may be emitted
at its position. -/
theorem unrecognized_items_skipped (d : List ContentItem)
    (htables : ∀ it ∈ d, it.type = "table" → (decodeTable it.content).isSome = true) :
    (displayContent d).2 = true ∧
    ((displayContent d).1).filter (fun n => !isHeaderNode n)
      = itemBlocksExpected d ∧
    (∀ it : ContentItem, it.type ≠ "text" → it.type ≠ "image" →
      it.type ≠ "table" → renderItemBlock it = some []) := by
  obtain ⟨hok, hfil⟩ := renderItems_item_blocks d "" htables
  exact ⟨hok, hfil, fun it h1 h2 h3 => by simp [renderItemBlock, h1, h2, h3]⟩

/-- C7 witness: an audio item between two text items yields no block and no
error; the item blocks are exactly the two paragraphs. -/
theorem unrecognized_items_skipped_witness :
    (displayContent [⟨"a.pdf", "text", "", "Hello"⟩,
        ⟨"a.pdf", "audio", "Clip", "x"⟩, ⟨"a.pdf", "text", "", "World"⟩]).2 = true ∧
    ((displayContent [⟨"a.pdf", "text", "", "Hello"⟩,
        ⟨"a.pdf", "audio", "Clip", "x"⟩, ⟨"a.pdf", "text", "", "World"⟩]).1).filter
        (fun n => !isHeaderNode n)
      = itemBlocksExpected [⟨"a.pdf", "text", "", "Hello"⟩,
          ⟨"a.pdf", "audio", "Clip", "x"⟩, ⟨"a.pdf", "text", "", "World"⟩] ∧
    itemBlocksExpected [⟨"a.pdf", "text", "", "Hello"⟩,
        ⟨"a.pdf", "audio", "Clip", "x"⟩, ⟨"a.pdf", "text", "", "World"⟩]
      = [pNode "Hello", pNode "World"] :=
  ⟨(unrecognized_items_skipped _ (by decide)).1,
   (unrecognized_items_skipped _ (by decide)).2.1,
   rfl⟩

/-- C8: a table item whose content deserializes to columns/data renders as a
titled block whose header row has one th per column in positional order and
whose body has one tr per data row in order, each row one td per cell in
positional order. -/
theorem table_items_render_positionally (it : ContentItem) (cols : List Json)
    (rows : List (List Json)) (ht : it.type = "table")
    (hd : decodeTable it.content = some (cols, rows)) :
    renderItemBlock it = some [tableNode it.title cols rows] ∧
    (cols.map thNode).length = cols.length ∧
    (∀ i : Nat, (cols.map thNode)[i]? = (cols[i]?).map thNode) ∧
    (rows.map rowNode).length = rows.length ∧
    (∀ i : Nat, (rows.map rowNode)[i]? = (rows[i]?).map rowNode) ∧
    (∀ r : List Json, rowNode r = Node.elem "tr" [] (r.map tdNode) ∧
      (r.map tdNode).length = r.length ∧
      ∀ i : Nat, (r.map tdNode)[i]? = (r[i]?).map tdNode) := by
  refine ⟨?_, by simp, ?_, by simp, ?_, ?_⟩
  · simp [renderItemBlock, ht, hd]
  · intro i
    simp [List.getElem?_map]
  · intro i
    simp [List.getElem?_map]
  · intro r
    exact ⟨rfl, by simp, fun i => by simp [List.getElem?_map]⟩

/-- C8 witness: the scenario table renders 2 header cells and 2 rows of 2
cells, in positional order. -/
theorem table_items_render_positionally_witness :
    renderItemBlock ⟨"a.pdf", "table", "T",
        "\x7b\"columns\":[\"X\",\"Y\"],\"data\":[[1,2],[3,4]]\x7d"⟩
      = some [tableNode "T" [Json.str "X", Json.str "Y"]
          [[Json.num 1, Json.num 2], [Json.num 3, Json.num 4]]] ∧
    ([Json.str "X", Json.str "Y"].map thNode).length = 2 ∧
    ([[Json.num 1, Json.num 2], [Json.num 3, Json.num 4]].map rowNode).length = 2 :=
  ⟨(table_items_render_positionally
      ⟨"a.pdf", "table", "T",
        "\x7b\"columns\":[\"X\",\"Y\"],\"data\":[[1,2],[3,4]]\x7d"⟩
      [Json.str "X", Json.str "Y"]
      [[Json.num 1, Json.num 2], [Json.num 3, Json.num 4]] rfl (by rfl)).1,
   by simp, by simp⟩

/-!
Lifecycle invariant: between handler runs the spinner is off, and a visible
download button implies the preview shows exactly the complete render of the
retained dataset.
-/

theorem goodState_initState : goodState initState := by
  refine ⟨rfl, fun hh => ?_⟩
  simp [initState] at hh

theorem goodState_step (s : UIState) (e : Event) (hg : goodState s) :
    goodState (step s e) := by
  obtain ⟨hl, hinv⟩ := hg
  cases e with
  | extract n up gen tm rm =>
    by_cases hn : n = 0
    · subst hn
      exact ⟨hl, fun hh => hinv hh⟩
    · cases up with
      | transport m =>
        refine ⟨by simp [step, extractStep, hn, extractFail], fun hh => ?_⟩
        simp [step, extractStep, hn, extractFail] at hh
      | bodyNotJson m =>
        refine ⟨by simp [step, extractStep, hn, extractFail], fun hh => ?_⟩
        simp [step, extractStep, hn, extractFail] at hh
      | httpFailure status body =>
        refine ⟨by simp [step, extractStep, hn, extractFail], fun hh => ?_⟩
        simp [step, extractStep, hn, extractFail] at hh
      | success data =>
        by_cases he : data.isEmpty
        · refine ⟨by simp [step, extractStep, hn, he], fun hh => ?_⟩
          simp [step, extractStep, hn, he] at hh
        · by_cases hrok : (displayContent data).2
          · cases gen with
            | resolved b =>
              refine ⟨by simp [step, extractStep, hn, he, hrok], fun hh => ?_⟩
              refine ⟨?_, ?_, ?_⟩
              · simp [step, extractStep, hn, he, hrok]
                intro hnil
                simp [hnil] at he
              · simp [step, extractStep, hn, he, hrok]
              · simp [step, extractStep, hn, he, hrok]
            | rejected m =>
              refine ⟨by simp [step, extractStep, hn, he, hrok, extractFail],
                fun hh => ?_⟩
              simp [step, extractStep, hn, he, hrok, extractFail] at hh
          · refine ⟨by simp [step, extractStep, hn, he, hrok, extractFail],
              fun hh => ?_⟩
            simp [step, extractStep, hn, he, hrok, extractFail] at hh
  | download o tm =>
    by_cases he : s.extractedData.isEmpty
    · refine ⟨by simp [step, downloadStep, he, hl], fun hh => ?_⟩
      have hh2 : s.downloadHidden = false := by
        simp [step, downloadStep, he] at hh
        exact hh
      obtain ⟨h1, h2, h3⟩ := hinv hh2
      refine ⟨?_, ?_, ?_⟩
      · simp [step, downloadStep, he]
        exact h1
      · simp [step, downloadStep, he]
        exact h2
      · simp [step, downloadStep, he]
        exact h3
    · cases o with
      | success =>
        refine ⟨by simp [step, downloadStep, he], fun hh => ?_⟩
        have hh2 : s.downloadHidden = false := by
          simp [step, downloadStep, he] at hh
          exact hh
        obtain ⟨h1, h2, h3⟩ := hinv hh2
        exact ⟨by simp [step, downloadStep, he]; exact h1,
          by simp [step, downloadStep, he]; exact h2,
          by simp [step, downloadStep, he]; exact h3⟩
      | httpFailure status body =>
        refine ⟨by simp [step, downloadStep, he], fun hh => ?_⟩
        have hh2 : s.downloadHidden = false := by
          simp [step, downloadStep, he] at hh
          exact hh
        obtain ⟨h1, h2, h3⟩ := hinv hh2
        exact ⟨by simp [step, downloadStep, he]; exact h1,
          by simp [step, downloadStep, he]; exact h2,
          by simp [step, downloadStep, he]; exact h3⟩
      | transport m =>
        refine ⟨by simp [step, downloadStep, he], fun hh => ?_⟩
        have hh2 : s.downloadHidden = false := by
          simp [step, downloadStep, he] at hh
          exact hh
        obtain ⟨h1, h2, h3⟩ := hinv hh2
        exact ⟨by simp [step, downloadStep, he]; exact h1,
          by simp [step, downloadStep, he]; exact h2,
          by simp [step, downloadStep, he]; exact h3⟩

theorem reachable_goodState (s : UIState) (h : Reachable s) : goodState s := by
  induction h with
  | init => exact goodState_initState
  | next s e hs ih => exact goodState_step s e ih

/-- C2: whenever a download can be issued (the download button is visible
between handler runs), the dataset serialized into the download request body
is exactly the retained dataset, and the preview on display is exactly the
complete, successful render of that same dataset: the body always matches
the preview, never a stale or partially-updated copy. -/
theorem download_sends_displayed_dataset (s : UIState) (hr : Reachable s)
    (hready : s.downloadHidden = false) (o : DownloadOutcome) (tm : String) :
    (downloadStep s o tm).2.2 = some s.extractedData ∧
    s.previewBlocks = (displayContent s.extractedData).1 ∧
    (displayContent s.extractedData).2 = true := by
  obtain ⟨-, hinv⟩ := reachable_goodState s hr
  obtain ⟨hne, hpv, hok⟩ := hinv hready
  have he : s.extractedData.isEmpty = false := by
    cases hx : s.extractedData with
    | nil => exact absurd hx hne
    | cons a l => simp [hx]
  refine ⟨?_, hpv, hok⟩
  cases o <;> simp [downloadStep, he]

/-- C2 witness: after one successful extraction of a text item the button is
visible and the download body is the very dataset on display. -/
theorem download_sends_displayed_dataset_witness :
    (step initState (Event.extract 1
        (UploadOutcome.success [⟨"a.pdf", "text", "", "Hello"⟩])
        (GenOutcome.resolved true) "j" "r")).downloadHidden = false ∧
    (downloadStep (step initState (Event.extract 1
        (UploadOutcome.success [⟨"a.pdf", "text", "", "Hello"⟩])
        (GenOutcome.resolved true) "j" "r")) DownloadOutcome.success "t").2.2
      = some (step initState (Event.extract 1
          (UploadOutcome.success [⟨"a.pdf", "text", "", "Hello"⟩])
          (GenOutcome.resolved true) "j" "r")).extractedData :=
  ⟨by decide,
   (download_sends_displayed_dataset _
      (Reachable.next initState (Event.extract 1
        (UploadOutcome.success [⟨"a.pdf", "text", "", "Hello"⟩])
        (GenOutcome.resolved true) "j" "r") Reachable.init)
      (by decide) DownloadOutcome.success "t").1⟩

/-- C4: whichever way a run that reached the network phase ends (service
success, http failure, transport failure, unusable body, or an exception
thrown inside rendering), the finally block clears the loading state, so
user-triggered operations are re-enabled when the run returns. -/
theorem loading_always_cleared (s : UIState) (n : Nat) (up : UploadOutcome)
    (gen : GenOutcome) (tm rm : String) (o : DownloadOutcome) (dm : String) :
    (n ≠ 0 → ((extractStep s n up gen tm rm).1).loading = false) ∧
    (s.extractedData ≠ [] → ((downloadStep s o dm).1).loading = false) := by
  constructor
  · intro hn
    cases up with
    | transport m => simp [extractStep, hn, extractFail]
    | bodyNotJson m => simp [extractStep, hn, extractFail]
    | httpFailure status body => simp [extractStep, hn, extractFail]
    | success data =>
      by_cases he : data.isEmpty
      · simp [extractStep, hn, he]
      · by_cases hrok : (displayContent data).2
        · cases gen <;> simp [extractStep, hn, he, hrok, extractFail]
        · simp [extractStep, hn, he, hrok, extractFail]
  · intro hd
    have he : s.extractedData.isEmpty = false := by
      cases hx : s.extractedData with
      | nil => exact absurd hx hd
      | cons a l => simp [hx]
    cases o <;> simp [downloadStep, he]

/-- C4 witness: a transport failure on extract and on download both leave
loading cleared. -/
theorem loading_always_cleared_witness :
    ((extractStep { initState with extractedData := [⟨"a.pdf", "text", "", "Hi"⟩] }
        1 (UploadOutcome.transport "down") (GenOutcome.resolved true) "j" "r").1).loading
      = false ∧
    ((downloadStep { initState with extractedData := [⟨"a.pdf", "text", "", "Hi"⟩] }
        (DownloadOutcome.transport "down") "j").1).loading = false :=
  ⟨(loading_always_cleared
      { initState with extractedData := [⟨"a.pdf", "text", "", "Hi"⟩] }
      1 (UploadOutcome.transport "down") (GenOutcome.resolved true) "j" "r"
      (DownloadOutcome.transport "down") "j").1 (by decide),
   (loading_always_cleared
      { initState with extractedData := [⟨"a.pdf", "text", "", "Hi"⟩] }
      1 (UploadOutcome.transport "down") (GenOutcome.resolved true) "j" "r"
      (DownloadOutcome.transport "down") "j").2 (by decide)⟩

/-- C5 counterexample: for a non-2xx response whose body is not JSON, the
await of response.json() rejects and the catch shows that parse failure, not
a message derived from the HTTP status code: with status 500 and an
unparseable body the user sees the parse error text, which differs from the
generic status-derived message the claim requires. -/
theorem nonjson_error_body_not_status_message :
    ((extractStep initState 1 (UploadOutcome.httpFailure 500 none)
        (GenOutcome.resolved true) "Unexpected end of JSON input" "r").1).message
      = extractErrMsg "Unexpected end of JSON input" ∧
    extractErrMsg "Unexpected end of JSON input"
      ≠ extractErrMsg (genericStatusMessage 500) := by
  exact ⟨rfl, by decide⟩

/-- C5 (amended): for a non-2xx response from either endpoint whose body
parses as JSON (and is not null), the user-visible message carries the error
field when it is present and truthy, and otherwise the generic status-derived
message; when the body is absent or not valid JSON (or is null, making the
error-field access throw), the message carries the thrown error text instead
of a status-derived message. -/
theorem service_error_message_selection (s : UIState) (n : Nat) (hn : n ≠ 0)
    (status : Nat) (j : Json) (gen : GenOutcome) (tm rm : String) :
    (j ≠ Json.null →
      ((extractStep s n (UploadOutcome.httpFailure status (some j)) gen tm rm).1).message
        = extractErrMsg (serviceErrorMessage status j)) ∧
    ((extractStep s n (UploadOutcome.httpFailure status none) gen tm rm).1).message
      = extractErrMsg tm ∧
    (s.extractedData ≠ [] → j ≠ Json.null →
      ((downloadStep s (DownloadOutcome.httpFailure status (some j)) tm).1).message
        = downloadErrMsg (serviceErrorMessage status j)) ∧
    (∀ e : Json, getProp j "error" = some e → jsTruthy e = true →
      serviceErrorMessage status j = jsDisplay e) ∧
    (∀ e : Json, getProp j "error" = some e → jsTruthy e = false →
      serviceErrorMessage status j = genericStatusMessage status) ∧
    (getProp j "error" = none →
      serviceErrorMessage status j = genericStatusMessage status) := by
  have hbody : j ≠ Json.null →
      errorBodyMessage status (some j) tm = serviceErrorMessage status j := by
    intro hj
    cases j with
    | null => exact absurd rfl hj
    | bool b => rfl
    | num v => rfl
    | str v => rfl
    | arr xs => rfl
    | obj fs => rfl
  refine ⟨?_, ?_, ?_, ?_, ?_, ?_⟩
  · intro hj
    simp [extractStep, hn, extractFail, hbody hj]
  · simp [extractStep, hn, extractFail, errorBodyMessage]
  · intro hd hj
    have he : s.extractedData.isEmpty = false := by
      cases hx : s.extractedData with
      | nil => exact absurd hx hd
      | cons a l => simp [hx]
    simp [downloadStep, he, hbody hj]
  · intro e hge htr
    simp [serviceErrorMessage, hge, htr]
  · intro e hge htr
    simp [serviceErrorMessage, hge, htr]
  · intro hge
    simp [serviceErrorMessage, hge]

/-- C5 witness: a 500 with body error field "disk full" surfaces exactly
that text in the failure message. -/
theorem service_error_message_selection_witness :
    ((extractStep initState 1
        (UploadOutcome.httpFailure 500 (some (Json.obj [("error", Json.str "disk full")])))
        (GenOutcome.resolved true) "j" "r").1).message
      = extractErrMsg (serviceErrorMessage 500 (Json.obj [("error", Json.str "disk full")])) ∧
    serviceErrorMessage 500 (Json.obj [("error", Json.str "disk full")]) = "disk full" :=
  ⟨(service_error_message_selection initState 1 (by decide) 500
      (Json.obj [("error", Json.str "disk full")])
      (GenOutcome.resolved true) "j" "r").1 (fun h => Json.noConfusion h),
   rfl⟩

/-- C6: an extract click with an empty file selection only sets the
validation message (no files selected), issues zero network calls, and
leaves every other piece of state unchanged. -/
theorem empty_selection_no_network (s : UIState) (up : UploadOutcome)
    (gen : GenOutcome) (tm rm : String) :
    extractStep s 0 up gen tm rm
      = ({ s with message := noFilesMsg, messageColor := "yellow" }, 0) :=
  rfl

/-- C9: a download click with nothing retained only sets the validation
message (nothing to download) and issues no network call; and no download
run, whatever its outcome, ever modifies the retained dataset, so a retry
after a failure needs no re-extraction. -/
theorem download_validation_and_retry (s : UIState) (o : DownloadOutcome)
    (tm : String) :
    (s.extractedData = [] →
      downloadStep s o tm
        = ({ s with message := noDownloadMsg, messageColor := "yellow" }, 0, none)) ∧
    ((downloadStep s o tm).1).extractedData = s.extractedData := by
  constructor
  · intro he
    simp [downloadStep, he]
  · by_cases he : s.extractedData.isEmpty <;>
      cases o <;> simp [downloadStep, he]

/-- C9 witness: from the initial state a download click is a pure validation
failure, and a failing download leaves a retained dataset untouched. -/
theorem download_validation_and_retry_witness :
    downloadStep initState DownloadOutcome.success "m"
      = ({ initState with message := noDownloadMsg, messageColor := "yellow" },
         0, none) ∧
    ((downloadStep { initState with extractedData := [⟨"a.pdf", "text", "", "Hi"⟩] }
        (DownloadOutcome.transport "down") "m").1).extractedData
      = [⟨"a.pdf", "text", "", "Hi"⟩] :=
  ⟨(download_validation_and_retry initState DownloadOutcome.success "m").1 rfl,
   (download_validation_and_retry
      { initState with extractedData := [⟨"a.pdf", "text", "", "Hi"⟩] }
      (DownloadOutcome.transport "down") "m").2⟩

/-- C10: after a successful non-empty extraction with a clean render, the
proactive generate request status is never inspected: the download button is
shown whenever the request resolves, 2xx or not; if it rejects at transport
level, the catch replaces the green success message with the red error text
and the button stays hidden even though the dataset was stored and the
preview was rendered. -/
theorem proactive_generation_status_ignored (s : UIState) (n : Nat)
    (hn : n ≠ 0) (data : List ContentItem) (hne : data ≠ [])
    (hok : (displayContent data).2 = true) (b : Bool) (m tm rm : String) :
    (((extractStep s n (UploadOutcome.success data) (GenOutcome.resolved b)
        tm rm).1).downloadHidden = false ∧
     ((extractStep s n (UploadOutcome.success data) (GenOutcome.resolved b)
        tm rm).1).messageColor = "green" ∧
     ((extractStep s n (UploadOutcome.success data) (GenOutcome.resolved b)
        tm rm).1).extractedData = data ∧
     ((extractStep s n (UploadOutcome.success data) (GenOutcome.resolved b)
        tm rm).1).previewBlocks = (displayContent data).1) ∧
    (((extractStep s n (UploadOutcome.success data) (GenOutcome.rejected m)
        tm rm).1).downloadHidden = true ∧
     ((extractStep s n (UploadOutcome.success data) (GenOutcome.rejected m)
        tm rm).1).messageColor = "red" ∧
     ((extractStep s n (UploadOutcome.success data) (GenOutcome.rejected m)
        tm rm).1).message = extractErrMsg m ∧
     ((extractStep s n (UploadOutcome.success data) (GenOutcome.rejected m)
        tm rm).1).extractedData = data ∧
     ((extractStep s n (UploadOutcome.success data) (GenOutcome.rejected m)
        tm rm).1).previewBlocks = (displayContent data).1) := by
  have he : data.isEmpty = false := by
    cases hx : data with
    | nil => exact absurd hx hne
    | cons a l => simp
  refine ⟨⟨?_, ?_, ?_, ?_⟩, ⟨?_, ?_, ?_, ?_, ?_⟩⟩ <;>
    simp [extractStep, hn, he, hok, extractFail]

/-- C10 witness: a resolved non-2xx generate response still shows the
download button; a rejected one leaves it hidden with the error message,
dataset stored and preview rendered. -/
theorem proactive_generation_status_ignored_witness :
    ((extractStep initState 1
        (UploadOutcome.success [⟨"a.pdf", "text", "", "Hi"⟩])
        (GenOutcome.resolved false) "j" "r").1).downloadHidden = false ∧
    ((extractStep initState 1
        (UploadOutcome.success [⟨"a.pdf", "text", "", "Hi"⟩])
        (GenOutcome.rejected "boom") "j" "r").1).downloadHidden = true ∧
    ((extractStep initState 1
        (UploadOutcome.success [⟨"a.pdf", "text", "", "Hi"⟩])
        (GenOutcome.rejected "boom") "j" "r").1).message = extractErrMsg "boom" :=
  ⟨(proactive_generation_status_ignored initState 1 (by decide)
      [⟨"a.pdf", "text", "", "Hi"⟩] (by decide) (by decide) false "boom" "j" "r").1.1,
   (proactive_generation_status_ignored initState 1 (by decide)
      [⟨"a.pdf", "text", "", "Hi"⟩] (by decide) (by decide) false "boom" "j" "r").2.1,
   (proactive_generation_status_ignored initState 1 (by decide)
      [⟨"a.pdf", "text", "", "Hi"⟩] (by decide) (by decide) false "boom" "j" "r").2.2.2.1⟩

end PdfPreview
